import Mathlib

/-!
Verification of the `py-mcp-google-toolbox` MCP server (`src/server.py`)
against its natural-language specification.

The Python source is shallowly embedded: Python strings are Lean `String`s
manipulated through their character lists (the built-in byte-position-based
`String` operations do not reduce in the kernel), Python dicts are
association lists, external Google API calls are oracles returning an
`ExtCall` outcome (normal value, `googleapiclient.errors.HttpError`, or any
other exception), and each tool handler is a total Lean function from its
arguments and oracles to the value the Python handler returns, paired with
a count of the external calls it performed.
-/

/-! ## Python string primitives, embedded over character lists -/

/-- The character list of a string (Python strings are sequences of code points). -/
def chars (s : String) : List Char := s.data

/-- Rebuild a string from its character list. -/
def ofChars (l : List Char) : String := String.mk l

/-- ASCII whitespace stripped by Python `str.strip()` (space, tab, newline,
carriage return, vertical tab, form feed; the further Unicode whitespace
code points never occur in the queries modelled here). -/
def isPySpace (c : Char) : Bool :=
  c = ' ' || c = '\t' || c = '\n' || c = '\x0d' || c = '\x0b' || c = '\x0c'

/-- Python `str.strip()`: drop leading and trailing whitespace. -/
def pyStrip (s : String) : String :=
  ofChars ((((chars s).dropWhile isPySpace).reverse.dropWhile isPySpace).reverse)

/-- ASCII lowering of one character, as Python `str.lower()` acts on the
ASCII letters occurring in the modelled queries. -/
def pyLowerChar (c : Char) : Char :=
  if 65 ≤ c.toNat ∧ c.toNat ≤ 90 then Char.ofNat (c.toNat + 32) else c

/-- Python `str.lower()`. -/
def pyLower (s : String) : String := ofChars ((chars s).map pyLowerChar)

/-- Python `str.replace(old, new)` for a single-character pattern `old`
(the only form `server.py` uses, in the Drive query escaping). -/
def replaceChar (c : Char) (rep : List Char) : List Char → List Char
  | [] => []
  | x :: xs => (if x = c then rep else [x]) ++ replaceChar c rep xs

/-- Python substring test `pat in l` over character lists. -/
def listContainsSub (pat : List Char) : List Char → Bool
  | [] => pat.isEmpty
  | x :: xs => pat.isPrefixOf (x :: xs) || listContainsSub pat xs

/-- Python `sub in s` substring containment. -/
def pyIn (sub s : String) : Bool := listContainsSub (chars sub) (chars s)

/-! ## `search_gdrive` query construction (src/server.py lines 816-845) -/

/-- `user_query.replace("\\", "\\\\").replace("'", "\\'")` — escape backslash
and single quote in the Drive free-text query. -/
def escapeDriveQuery (user_query : String) : String :=
  ofChars (replaceChar '\'' ['\\', '\'']
    (replaceChar '\\' ['\\', '\\'] (chars user_query)))

/-- The `conditions` list built by `search_gdrive` for a non-empty stripped
query: the name-contains filter, then at most one mimeType filter chosen by
the `if`/`elif` keyword chain on the lowered query. -/
def searchConditions (user_query escaped_query : String) : List String :=
  let base := ["name contains '" ++ escaped_query ++ "'"]
  if pyIn "sheet" (pyLower user_query) then
    base ++ ["mimeType = 'application/vnd.google-apps.spreadsheet'"]
  else if pyIn "doc" (pyLower user_query) then
    base ++ ["mimeType = 'application/vnd.google-apps.document'"]
  else if pyIn "presentation" (pyLower user_query) || pyIn "slide" (pyLower user_query) then
    base ++ ["mimeType = 'application/vnd.google-apps.presentation'"]
  else base

/-- The Drive query predicate `search_query` computed by `search_gdrive`:
empty stripped query gives `trashed = false`; otherwise the conditions are
joined with `" or "`, parenthesised, and conjoined with `trashed = false`. -/
def buildDriveQuery (query : String) : String :=
  let user_query := pyStrip query
  if user_query = "" then "trashed = false"
  else
    let escaped_query := escapeDriveQuery user_query
    "(" ++ String.intercalate " or " (searchConditions user_query escaped_query)
      ++ ") and trashed = false"

/-- The effective page size `search_gdrive` sends to the Drive API:
`None` defaults to 10, then `min(max(1, page_size), 100)`. -/
def clampPageSize (page_size : Option Int) : Int :=
  let ps : Int := match page_size with | none => 10 | some n => n
  min (max 1 ps) 100

deriving instance DecidableEq for Except

/-! ## base64 (`base64.urlsafe_b64decode` / `base64.b64encode`) and UTF-8 -/

/-- Six-bit value of a base64 character. `urlsafe_b64decode` first maps
`-`/`_` to `+`/`/`, so both alphabets decode. -/
def b64Val (c : Char) : Option Nat :=
  if 65 ≤ c.toNat ∧ c.toNat ≤ 90 then some (c.toNat - 65)
  else if 97 ≤ c.toNat ∧ c.toNat ≤ 122 then some (c.toNat - 97 + 26)
  else if 48 ≤ c.toNat ∧ c.toNat ≤ 57 then some (c.toNat - 48 + 52)
  else if c = '-' ∨ c = '+' then some 62
  else if c = '_' ∨ c = '/' then some 63
  else none

/-- Reassemble six-bit groups into bytes (a trailing group of two or three
values yields one or two bytes; a trailing single value is rejected before
this function is called). -/
def b64Bytes : List Nat → List Nat
  | a :: b :: c :: d :: rest =>
    (a * 4 + b / 16) :: ((b % 16) * 16 + c / 4) :: ((c % 4) * 64 + d) :: b64Bytes rest
  | [a, b] => [a * 4 + b / 16]
  | [a, b, c] => [a * 4 + b / 16, (b % 16) * 16 + c / 4]
  | _ => []

/-- Python `base64.urlsafe_b64decode(s)` to a byte list: characters outside
the alphabet and `=` are discarded (`validate=False`), the kept length must
be a multiple of four (`binascii.Error: Incorrect padding` otherwise), `=`
terminates the data, and a number of data characters that is one more than
a multiple of four is invalid. -/
def urlsafeB64Decode (s : String) : Except String (List Nat) :=
  let kept := (chars s).filter (fun c => (b64Val c).isSome || c = '=')
  if kept.length % 4 ≠ 0 then .error "Incorrect padding"
  else
    let vals := (kept.takeWhile (fun c => c ≠ '=')).filterMap b64Val
    if vals.length % 4 = 1 then .error "Invalid base64-encoded string"
    else .ok (b64Bytes vals)

/-- Is `b` a UTF-8 continuation byte? -/
def isContByte (b : Nat) : Bool := 128 ≤ b ∧ b ≤ 191

/-- Strict UTF-8 decoding of a byte list, as Python `bytes.decode('utf-8')`:
rejects overlong encodings, surrogates and code points above `0x10FFFF`. -/
def utf8Chars : List Nat → Option (List Char)
  | [] => some []
  | b :: rest =>
    if b ≤ 127 then (utf8Chars rest).map (Char.ofNat b :: ·)
    else if 194 ≤ b ∧ b ≤ 223 then
      match rest with
      | b2 :: r =>
        if isContByte b2 then
          (utf8Chars r).map (Char.ofNat ((b - 192) * 64 + (b2 - 128)) :: ·)
        else none
      | [] => none
    else if 224 ≤ b ∧ b ≤ 239 then
      match rest with
      | b2 :: b3 :: r =>
        let lo2 := if b = 224 then 160 else 128
        let hi2 := if b = 237 then 159 else 191
        if (lo2 ≤ b2 ∧ b2 ≤ hi2) ∧ isContByte b3 then
          (utf8Chars r).map (Char.ofNat ((b - 224) * 4096 + (b2 - 128) * 64 + (b3 - 128)) :: ·)
        else none
      | _ => none
    else if 240 ≤ b ∧ b ≤ 244 then
      match rest with
      | b2 :: b3 :: b4 :: r =>
        let lo2 := if b = 240 then 144 else 128
        let hi2 := if b = 244 then 143 else 191
        if (lo2 ≤ b2 ∧ b2 ≤ hi2) ∧ isContByte b3 ∧ isContByte b4 then
          (utf8Chars r).map
            (Char.ofNat ((b - 240) * 262144 + (b2 - 128) * 4096 + (b3 - 128) * 64 + (b4 - 128)) :: ·)
        else none
      | _ => none
    else none

/-- `bytes.decode('utf-8')` as an optional string. -/
def utf8Decode (bytes : List Nat) : Option String := (utf8Chars bytes).map ofChars

/-- `base64.urlsafe_b64decode(data).decode('utf-8')`, the decoding applied to
every extracted email body; `.error` models the raised exception. -/
def urlsafeB64DecodeUtf8 (s : String) : Except String String :=
  match urlsafeB64Decode s with
  | .error e => .error e
  | .ok bytes =>
    match utf8Decode bytes with
    | some t => .ok t
    | none => .error "UnicodeDecodeError"

/-- Standard-alphabet base64 encoding character. -/
def b64EncChar (n : Nat) : Char :=
  if n < 26 then Char.ofNat (65 + n)
  else if n < 52 then Char.ofNat (97 + (n - 26))
  else if n < 62 then Char.ofNat (48 + (n - 52))
  else if n = 62 then '+' else '/'

/-- `base64.b64encode(bytes).decode('utf-8')` character list, with padding. -/
def b64EncodeChars : List Nat → List Char
  | b1 :: b2 :: b3 :: rest =>
    b64EncChar (b1 / 4) :: b64EncChar ((b1 % 4) * 16 + b2 / 16) ::
      b64EncChar ((b2 % 16) * 4 + b3 / 64) :: b64EncChar (b3 % 64) :: b64EncodeChars rest
  | [b1, b2] => [b64EncChar (b1 / 4), b64EncChar ((b1 % 4) * 16 + b2 / 16),
      b64EncChar ((b2 % 16) * 4), '=']
  | [b1] => [b64EncChar (b1 / 4), b64EncChar ((b1 % 4) * 16), '=', '=']
  | [] => []

/-- `base64.b64encode(bytes).decode('utf-8')`. -/
def b64Encode (bytes : List Nat) : String := ofChars (b64EncodeChars bytes)

/-! ## Email payload model and `_get_email_body` (src/server.py lines 172-190) -/

/-- The `body` object of a Gmail payload part: the `data` key may be absent. -/
structure MailBody where
  data : Option String
deriving DecidableEq

/-- One entry of a `parts` list. `mimeType` is accessed unconditionally by
`_get_email_body` (`part['mimeType']`), so it is a required field; `body`
and `parts` model the optional dict keys of the same names. -/
inductive MailPart where
  | mk (mimeType : String) (body : Option MailBody) (parts : Option (List MailPart))

/-- The MIME type of a part. -/
def MailPart.mimeType : MailPart → String
  | .mk m _ _ => m

/-- The `body` object of a part, when the key is present. -/
def MailPart.body : MailPart → Option MailBody
  | .mk _ b _ => b

/-- The nested `parts` list of a part, when the key is present. -/
def MailPart.parts : MailPart → Option (List MailPart)
  | .mk _ _ p => p

/-- The top-level message payload. `none` at the call site models a falsy
payload (`None` or `{}`); a `MailPayload` with all fields `none` models a
truthy dict that lacks the three keys `_get_email_body` reads. The
top-level `mimeType` is read with `payload.get('mimeType', 'text/plain')`,
hence optional. -/
structure MailPayload where
  mimeType : Option String
  body : Option MailBody
  parts : Option (List MailPart)

/-- The data of a part when it is `text/plain` with a `body` carrying
`data` — the guard of both loops in `_get_email_body`. -/
def partPlainData (p : MailPart) : Option String :=
  if p.mimeType = "text/plain" then
    match p.body with
    | some b => b.data
    | none => none
  else none

/-- First loop of `_get_email_body`: first `text/plain` entry of a parts
list that carries body data. -/
def findPlainTop : List MailPart → Option String
  | [] => none
  | p :: ps =>
    match partPlainData p with
    | some d => some d
    | none => findPlainTop ps

/-- Second loop of `_get_email_body`: scan the parts list for
`multipart/alternative` entries that carry a `parts` key and return the
first `text/plain` sub-part datum found. -/
def findPlainAlt : List MailPart → Option String
  | [] => none
  | p :: ps =>
    let here : Option String :=
      if p.mimeType = "multipart/alternative" then
        match p.parts with
        | some subs => findPlainTop subs
        | none => none
      else none
    match here with
    | some d => some d
    | none => findPlainAlt ps

/-- `_get_email_body(payload)`. `.error` models an exception raised by the
base64/UTF-8 decoding of a matched datum (it would propagate to the calling
handler's `except` clause); every other path returns normally. -/
def getEmailBody (payload : Option MailPayload) : Except String String :=
  match payload with
  | none => .ok "(No body content)"
  | some pl =>
    let fromParts : Option String :=
      match pl.parts with
      | some ps =>
        match findPlainTop ps with
        | some d => some d
        | none => findPlainAlt ps
      | none => none
    match fromParts with
    | some d => urlsafeB64DecodeUtf8 d
    | none =>
      match pl.body with
      | some b =>
        match b.data with
        | some d =>
          if pyIn "text/plain" (pl.mimeType.getD "text/plain") then urlsafeB64DecodeUtf8 d
          else .ok "(Could not extract plain text body)"
        | none => .ok "(Could not extract plain text body)"
      | none => .ok "(Could not extract plain text body)"

/-! ### Spec-side renderings of the email-body claim -/

mutual

/-- Depth-first search for the first `text/plain` leaf of one part, per the
claim's words: a `text/plain` part carrying data is a leaf; otherwise the
search descends into its nested parts. -/
def dfsPlainPart : MailPart → Option String
  | .mk m b sub =>
    match (if m = "text/plain" then (match b with | some bb => bb.data | none => none)
           else none) with
    | some d => some d
    | none =>
      match sub with
      | some subs => dfsPlainList subs
      | none => none

/-- Depth-first search over a parts list, left to right. -/
def dfsPlainList : List MailPart → Option String
  | [] => none
  | p :: ps =>
    match dfsPlainPart p with
    | some d => some d
    | none => dfsPlainList ps

end

/-- The claim's reading of `_get_email_body`: return the first `text/plain`
leaf found by depth-first traversal of the nested part structure, decoded;
fall back to the payload's own body; otherwise the could-not-extract
sentinel. Stated from the claim's words, to be compared with the code's
`getEmailBody`. -/
def emailBodyDFSClaim (payload : Option MailPayload) : Except String String :=
  match payload with
  | none => .ok "(No body content)"
  | some pl =>
    match (match pl.parts with | some ps => dfsPlainList ps | none => none) with
    | some d => urlsafeB64DecodeUtf8 d
    | none =>
      match pl.body with
      | some b =>
        match b.data with
        | some d =>
          if pyIn "text/plain" (pl.mimeType.getD "text/plain") then urlsafeB64DecodeUtf8 d
          else .ok "(Could not extract plain text body)"
        | none => .ok "(Could not extract plain text body)"
      | none => .ok "(Could not extract plain text body)"

/-- The amended claim's description of body extraction: first `text/plain`
datum among the payload's direct parts; failing that, the first `text/plain`
datum among the sub-parts of direct `multipart/alternative` parts; failing
that, the payload's own body when its MIME type contains `text/plain`;
otherwise the could-not-extract sentinel (a falsy payload yields the
no-body-content sentinel). Written from the amended claim's words with
library combinators, to be compared with the code's `getEmailBody`. -/
def emailBodyTwoPass (payload : Option MailPayload) : Except String String :=
  match payload with
  | none => .ok "(No body content)"
  | some pl =>
    let directLeaf := (pl.parts.getD []).findSome? partPlainData
    let altLeaf := (pl.parts.getD []).findSome? (fun p =>
      if p.mimeType = "multipart/alternative" then (p.parts.getD []).findSome? partPlainData
      else none)
    match directLeaf <|> altLeaf with
    | some d => urlsafeB64DecodeUtf8 d
    | none =>
      match pl.body >>= (·.data) with
      | some d =>
        if pyIn "text/plain" (pl.mimeType.getD "text/plain") then urlsafeB64DecodeUtf8 d
        else .ok "(Could not extract plain text body)"
      | none => .ok "(Could not extract plain text body)"

/-! ## Credential store: `get_google_credentials` (src/server.py lines 113-160) -/

/-- The in-memory `google.oauth2.credentials.Credentials` object, reduced to
the attributes `get_google_credentials` reads: `valid`, `expired`, the
presence of `refresh_token`, and its `to_json()` serialization. -/
structure Creds where
  valid : Bool
  expired : Bool
  hasRefreshToken : Bool
  json : String
deriving DecidableEq

/-- The environment of one `get_google_credentials` call: how the token
file parses (`Credentials.from_authorized_user_file`; `none` models a raised
exception), the outcome of `creds.refresh(Request())` on any given record
(`.error` models a raised exception, `.ok` the mutated record), whether the
three bootstrap environment variables are truthy, and the record the
`Credentials(...)` constructor builds from them. -/
structure AuthEnv where
  parseTokenFile : String → Option Creds
  refresh : Creds → Except String Creds
  envSecretsPresent : Bool
  envCreds : Creds

/-- Outcome of one `get_google_credentials` call: the returned value, the
token file contents afterwards, and how many network refresh calls were
made. -/
structure GCResult where
  creds : Option Creds
  tokenFile : Option String
  refreshCalls : Nat
deriving DecidableEq

/-- The refresh-from-environment branch (lines 138-155): build a record from
the bootstrap secrets, refresh it, persist its serialization on success;
on exception return `None` without writing. -/
def envRefreshBranch (env : AuthEnv) (tokenFile : Option String) : GCResult :=
  match env.refresh env.envCreds with
  | .ok c2 => { creds := some c2, tokenFile := some c2.json, refreshCalls := 1 }
  | .error _ => { creds := none, tokenFile := tokenFile, refreshCalls := 1 }

/-- `get_google_credentials()`, with the token file contents passed as the
world state. Load the persisted record if the file exists and parses; if it
is valid return it; if it is expired with a refresh token, refresh it and
persist on success; otherwise fall back to the bootstrap secrets; on any
refresh exception return `None` without writing. -/
def get_google_credentials (env : AuthEnv) (tokenFile : Option String) : GCResult :=
  let creds0 : Option Creds :=
    match tokenFile with
    | some s => env.parseTokenFile s
    | none => none
  match creds0 with
  | some c =>
    if c.valid then { creds := some c, tokenFile := tokenFile, refreshCalls := 0 }
    else if c.expired ∧ c.hasRefreshToken then
      match env.refresh c with
      | .ok c2 => { creds := some c2, tokenFile := some c2.json, refreshCalls := 1 }
      | .error _ => { creds := none, tokenFile := tokenFile, refreshCalls := 1 }
    else if env.envSecretsPresent then envRefreshBranch env tokenFile
    else { creds := none, tokenFile := tokenFile, refreshCalls := 0 }
  | none =>
    if env.envSecretsPresent then envRefreshBranch env tokenFile
    else { creds := none, tokenFile := tokenFile, refreshCalls := 0 }

/-! ## Shared handler infrastructure -/

/-- Outcome of one external Google API call as seen from a handler's `try`
block: a normal value, a `googleapiclient.errors.HttpError` carrying
`error.resp.status` and the decoded `error.content`, or any other raised
exception carrying `str(e)`. -/
inductive ExtCall (α : Type) where
  | ok : α → ExtCall α
  | http : Nat → String → ExtCall α
  | exn : String → ExtCall α

/-- The Gmail HttpError message: the Korean prefix, then the status, a dash,
and the decoded error content. -/
def gmailApiError (status : Nat) (body : String) : String :=
  "Gmail API 오류: " ++ toString status ++ " - " ++ body

/-- The Calendar HttpError message: the Korean prefix, then the status, a
dash, and the decoded error content. -/
def calendarApiError (status : Nat) (body : String) : String :=
  "Calendar API 오류: " ++ toString status ++ " - " ++ body

/-- The unexpected-error message: the Korean prefix followed by the
stringified exception. -/
def unexpectedError (e : String) : String := "예상치 못한 오류 발생: " ++ e

/-- `str(error)` for an `HttpError`: an opaque rendering that carries the
status and body (the library formats it as `<HttpError status ...>`). -/
def hstr (status : Nat) (body : String) : String :=
  "<HttpError " ++ toString status ++ " " ++ body ++ ">"

/-- Python `s.startswith(pre)`. -/
def pyStartsWith (s pre : String) : Bool := (chars pre).isPrefixOf (chars s)

/-- Truthiness of an optional list argument (`None` and `[]` are falsy). -/
def pyTruthyList (o : Option (List String)) : Bool :=
  match o with
  | none => false
  | some l => !l.isEmpty

/-- Python `x or dflt` for an optional string `x` (`None` and `""` are falsy). -/
def pyOrStr (o : Option String) (dflt : String) : String :=
  match o with
  | some s => if s ≠ "" then s else dflt
  | none => dflt

/-! ## JSON values and dict operations (for calendar event resources) -/

/-- A JSON-like value, enough for the calendar event dictionaries the
handlers pass around. -/
inductive Json where
  | str : String → Json
  | arr : List Json → Json
  | obj : List (String × Json) → Json

/-- A Python dict with string keys, as an association list with unique keys. -/
abbrev JDict := List (String × Json)

/-- Python `d.get(k)` / `d[k]` lookup. -/
def dictLookup (d : JDict) (k : String) : Option Json :=
  (d.find? (fun p => p.1 = k)).map (·.2)

/-- Python `d[k] = v`: replace the entry if the key is present (keys are
unique in a dict), else append. -/
def dictSet (d : JDict) (k : String) (v : Json) : JDict :=
  if d.any (fun p => p.1 = k) then d.map (fun p => if p.1 = k then (k, v) else p)
  else d ++ [(k, v)]

/-- Python `base.update(upd)`: overlay every entry of `upd` onto `base`. -/
def dictUpdate (base upd : JDict) : JDict :=
  upd.foldl (fun acc p => dictSet acc p.1 p.2) base

/-- `.get(k)` on a JSON value that is expected to be a dict (the nested
`start`/`end` objects of an event). -/
def jget (j : Json) (k : String) : Option Json :=
  match j with
  | .obj d => dictLookup d k
  | _ => none

/-- Python truthiness of an optional JSON value. -/
def jsonTruthy : Option Json → Bool
  | none => false
  | some (.str s) => s ≠ ""
  | some (.arr l) => !l.isEmpty
  | some (.obj l) => !l.isEmpty

/-- Python `x or y` on optional JSON values. -/
def pyOrJ (a b : Option Json) : Option Json := if jsonTruthy a then a else b

/-- Rendering of a JSON value in an f-string; the `id` fields interpolated
by the handlers are JSON strings, other shapes are not modelled. -/
def jsonDisplay : Json → String
  | .str s => s
  | _ => ""

/-! ## `list_emails` (src/server.py lines 213-258) -/

/-- One entry of the `messages` list returned by `users().messages().list`. -/
structure MsgRef where
  id : String
  threadId : Option String
deriving DecidableEq

/-- The metadata-format message fetched per id: its payload headers
(name/value pairs) and snippet. -/
structure MsgMeta where
  headers : List (String × String)
  snippet : Option String
deriving DecidableEq

/-- One row of the handler's result list. `sender` holds the `'from'` key. -/
structure EmailDetail where
  id : String
  threadId : Option String
  subject : String
  sender : Option String
  date : Option String
  snippet : Option String
deriving DecidableEq

/-- The two Gmail API calls `list_emails` makes. `listMessages` takes
`maxResults` and `q` and returns the `messages` list (already defaulted to
`[]` when the key is absent, per `results.get('messages', [])`). -/
structure GmailOps where
  listMessages : Nat → String → ExtCall (List MsgRef)
  getMessageMeta : String → ExtCall MsgMeta

/-- Lookup in the dict built by `{h['name']: h['value'] for h in headers}`:
the last pair with the key wins. -/
def headersGet (hs : List (String × String)) (k : String) : Option String :=
  (hs.reverse.find? (fun p => p.1 = k)).map (·.2)

/-- The detail row built for one message. -/
def emailDetailOf (m : MsgRef) (meta : MsgMeta) : EmailDetail :=
  { id := m.id
  , threadId := m.threadId
  , subject := (headersGet meta.headers "Subject").getD "(No Subject)"
  , sender := headersGet meta.headers "From"
  , date := headersGet meta.headers "Date"
  , snippet := meta.snippet }

/-- What `list_emails` returns: the detail list, or the string the handler
returns on an error path. -/
inductive ListEmailsOut where
  | emails : List EmailDetail → ListEmailsOut
  | errorMsg : String → ListEmailsOut
deriving DecidableEq

/-- The per-message fetch loop: stops at the first call that raises,
counting the external calls made (the raising call included). -/
def fetchDetails (ops : GmailOps) : List MsgRef → ExtCall (List EmailDetail) × Nat
  | [] => (.ok [], 0)
  | m :: ms =>
    match ops.getMessageMeta m.id with
    | .ok meta =>
      match fetchDetails ops ms with
      | (.ok ds, n) => (.ok (emailDetailOf m meta :: ds), n + 1)
      | (.http s b, n) => (.http s b, n + 1)
      | (.exn e, n) => (.exn e, n + 1)
    | .http s b => (.http s b, 1)
    | .exn e => (.exn e, 1)

/-- `list_emails(query, max_results)`. `creds` is the value
`get_google_credentials()` returned; the second component counts the
external calls performed. `q=query or ""` equals `query` for every string
argument, so `query` is passed through. -/
def list_emails (creds : Option Creds) (ops : GmailOps) (query : String)
    (max_results : Nat) : ListEmailsOut × Nat :=
  match creds with
  | none => (.errorMsg "Google authentication failed.", 0)
  | some _ =>
    match ops.listMessages max_results query with
    | .http s b => (.errorMsg (gmailApiError s b), 1)
    | .exn e => (.errorMsg (unexpectedError e), 1)
    | .ok refs =>
      match fetchDetails ops refs with
      | (.ok ds, n) => (.emails ds, 1 + n)
      | (.http s b, n) => (.errorMsg (gmailApiError s b), 1 + n)
      | (.exn e, n) => (.errorMsg (unexpectedError e), 1 + n)

/-! ## `modify_email` (src/server.py lines 368-404) -/

/-- The request body: keys are set only for truthy label lists. -/
structure ModifyBody where
  addLabelIds : Option (List String)
  removeLabelIds : Option (List String)
deriving DecidableEq

/-- The one Gmail call `modify_email` makes; returns `message['id']`. -/
structure GmailModifyOps where
  modifyMessage : String → ModifyBody → ExtCall String

/-- `modify_email(id, add_labels, remove_labels)`: returns the message
string the handler returns, paired with the number of external calls. -/
def modify_email (creds : Option Creds) (ops : GmailModifyOps) (id : String)
    (add_labels remove_labels : Option (List String)) : String × Nat :=
  match creds with
  | none => ("Google authentication failed.", 0)
  | some _ =>
    if !pyTruthyList add_labels ∧ !pyTruthyList remove_labels then
      ("add_labels 또는 remove_labels 중 하나는 제공되어야 합니다.", 0)
    else
      let body : ModifyBody :=
        { addLabelIds := if pyTruthyList add_labels then add_labels else none
        , removeLabelIds := if pyTruthyList remove_labels then remove_labels else none }
      match ops.modifyMessage id body with
      | .ok mid => ("이메일 수정 성공. 메시지 ID " ++ mid ++ "의 라벨 업데이트 완료.", 1)
      | .http s b => (gmailApiError s b, 1)
      | .exn e => (unexpectedError e, 1)

/-! ## `update_event` (src/server.py lines 518-568) -/

/-- The two Calendar calls `update_event` makes: `events().get` and
`events().update` (which receives the merged event body). -/
structure CalOps where
  getEvent : String → ExtCall JDict
  putEvent : String → JDict → ExtCall JDict

/-- `{'dateTime': dt, 'timeZone': 'Asia/Seoul'}`. -/
def eventTimeJson (dt : String) : Json :=
  .obj [("dateTime", .str dt), ("timeZone", .str "Asia/Seoul")]

/-- `[{'email': email} for email in attendees]`. -/
def attendeesJson (emails : List String) : Json :=
  .arr (emails.map (fun e => .obj [("email", .str e)]))

/-- The `update_payload` dict: one entry per argument that `is not None`,
in the order the code adds them. -/
def updatePayload (summary start endT location description : Option String)
    (attendees : Option (List String)) : JDict :=
  (match summary with | some s => [("summary", Json.str s)] | none => [])
    ++ (match location with | some l => [("location", Json.str l)] | none => [])
    ++ (match description with | some d => [("description", Json.str d)] | none => [])
    ++ (match start with | some s => [("start", eventTimeJson s)] | none => [])
    ++ (match endT with | some e => [("end", eventTimeJson e)] | none => [])
    ++ (match attendees with | some a => [("attendees", attendeesJson a)] | none => [])

/-- Outcome of `update_event`: the returned message, the external call
count, and the event body passed to `events().update` when that call was
reached. -/
structure UpdateEventOut where
  result : String
  calls : Nat
  written : Option JDict

/-- `update_event(event_id, summary, start, end, location, description,
attendees)`: fetch the stored event, overlay the present arguments, write
the merged dict back. An `HttpError` with status 404 gets the dedicated
not-found message. -/
def update_event (creds : Option Creds) (ops : CalOps) (event_id : String)
    (summary start endT location description : Option String)
    (attendees : Option (List String)) : UpdateEventOut :=
  match creds with
  | none => { result := "Google authentication failed.", calls := 0, written := none }
  | some _ =>
    match ops.getEvent event_id with
    | .http s b =>
      { result := if s = 404 then "ID '" ++ event_id ++ "'의 이벤트를 찾을 수 없습니다."
                  else calendarApiError s b
      , calls := 1, written := none }
    | .exn e => { result := unexpectedError e, calls := 1, written := none }
    | .ok ev =>
      let merged := dictUpdate ev (updatePayload summary start endT location description attendees)
      match ops.putEvent event_id merged with
      | .ok upd =>
        match dictLookup upd "id" with
        | some v =>
          { result := "이벤트 업데이트 성공. 이벤트 ID: " ++ jsonDisplay v
          , calls := 2, written := some merged }
        | none =>
          { result := unexpectedError "'id'", calls := 2, written := some merged }
      | .http s b =>
        { result := if s = 404 then "ID '" ++ event_id ++ "'의 이벤트를 찾을 수 없습니다."
                    else calendarApiError s b
        , calls := 2, written := some merged }
      | .exn e => { result := unexpectedError e, calls := 2, written := some merged }

/-! ## `list_events` (src/server.py lines 411-461) -/

/-- The one Calendar call `list_events` makes: `events().list` with
`timeMin`, `timeMax` and `maxResults`; returns the `items` list (already
defaulted to `[]` when absent), each item an event dict. -/
structure CalListOps where
  listEvents : String → String → Nat → ExtCall (List JDict)

/-- One row of the handler's result list (the shaped event). -/
structure EventSummary where
  id : Option Json
  summary : Option Json
  start : Option Json
  endT : Option Json
  location : Option Json
  description : Option Json

/-- The shaping applied per event item:
`event.get('start', {}).get('dateTime') or event.get('start', {}).get('date')`
and likewise for `end`. -/
def eventSummaryOf (ev : JDict) : EventSummary :=
  let startObj := (dictLookup ev "start").getD (.obj [])
  let endObj := (dictLookup ev "end").getD (.obj [])
  { id := dictLookup ev "id"
  , summary := dictLookup ev "summary"
  , start := pyOrJ (jget startObj "dateTime") (jget startObj "date")
  , endT := pyOrJ (jget endObj "dateTime") (jget endObj "date")
  , location := dictLookup ev "location"
  , description := dictLookup ev "description" }

/-- What `list_events` returns: the shaped event list or an error string. -/
inductive ListEventsRes where
  | events : List EventSummary → ListEventsRes
  | errorMsg : String → ListEventsRes

/-- Outcome of `list_events`: the returned value, the external call count,
and the `(timeMin, timeMax, maxResults)` triple sent when the call was
reached. -/
structure ListEventsOut where
  result : ListEventsRes
  calls : Nat
  queried : Option (String × String × Nat)

/-- `list_events(time_min, time_max, max_results)`. `now_iso` is the
`datetime.datetime.now(datetime.timezone.utc).isoformat()` timestamp taken
inside the `try` block; falsy `time_min`/`time_max` both default to it. -/
def list_events (creds : Option Creds) (ops : CalListOps) (now_iso : String)
    (time_min time_max : Option String) (max_results : Nat) : ListEventsOut :=
  match creds with
  | none => { result := .errorMsg "Google authentication failed.", calls := 0, queried := none }
  | some _ =>
    let tmin := pyOrStr time_min now_iso
    let tmax := pyOrStr time_max now_iso
    match ops.listEvents tmin tmax max_results with
    | .ok items =>
      { result := .events (items.map eventSummaryOf), calls := 1
      , queried := some (tmin, tmax, max_results) }
    | .http s b =>
      { result := .errorMsg (calendarApiError s b), calls := 1
      , queried := some (tmin, tmax, max_results) }
    | .exn e =>
      { result := .errorMsg (unexpectedError e), calls := 1
      , queried := some (tmin, tmax, max_results) }

/-! ## `search_google` (src/server.py lines 609-668) -/

/-- One item of the Custom Search response. -/
structure CseItem where
  title : Option String
  link : Option String
  snippet : Option String
deriving DecidableEq

/-- `result.get('searchInformation', {})`. -/
structure SearchInfo where
  totalResults : Option String
deriving DecidableEq

/-- The Custom Search response dict: the `items` key may be absent. -/
structure CseResult where
  items : Option (List CseItem)
  searchInformation : Option SearchInfo
deriving DecidableEq

/-- The one Custom Search call: `service.cse().list(q, cx, num).execute()`
(`cx` is the fixed configured engine id). Note `search_google` never calls
`get_google_credentials`; it authenticates with the configured API key. -/
structure CseOps where
  cseList : String → Nat → ExtCall CseResult

/-- One formatted result row. -/
structure FmtItem where
  title : String
  link : String
  snippet : String
deriving DecidableEq

/-- The formatting applied per item. -/
def fmtItem (it : CseItem) : FmtItem :=
  { title := it.title.getD "", link := it.link.getD "", snippet := it.snippet.getD "" }

/-- What `search_google` returns: the success dict
(`success=True, results, total_results`) or the failure dict
(`success=False, error, results=[]`). -/
inductive SearchGoogleOut where
  | okRes : List FmtItem → String → SearchGoogleOut
  | errRes : String → SearchGoogleOut
deriving DecidableEq

/-- `search_google(query, num_results)`. The handler performs its external
call unconditionally — there is no credential-acquisition step. -/
def search_google (ops : CseOps) (query : String) (num_results : Nat) :
    SearchGoogleOut × Nat :=
  match ops.cseList query num_results with
  | .ok r =>
    (.okRes ((r.items.getD []).map fmtItem)
      (((r.searchInformation.getD ⟨none⟩).totalResults).getD "0"), 1)
  | .http s b => (.errRes ("API Error: " ++ hstr s b), 1)
  | .exn e => (.errRes e, 1)

/-! ## `read_gdrive_file` (src/server.py lines 674-782) -/

/-- `files().get(fileId, fields="mimeType,name")`: both keys read with
`.get` and a default. -/
structure DriveFileMeta where
  name : Option String
  mimeType : Option String
deriving DecidableEq

/-- The Drive calls `read_gdrive_file` can make: metadata fetch, server-side
export (given the chosen export MIME type) returning bytes, and the chunked
media download (the `while not done` loop, abstracted to its final byte
content; a chunk error raises). -/
structure DriveOps where
  getMeta : String → ExtCall DriveFileMeta
  exportFile : String → String → ExtCall (List Nat)
  downloadFile : String → ExtCall (List Nat)

/-- The static export-format mapping for native Google documents
(default `text/plain`, then the `if`/`elif` overrides). -/
def exportMimeFor (mime : String) : String :=
  if mime = "application/vnd.google-apps.document" then "text/markdown"
  else if mime = "application/vnd.google-apps.spreadsheet" then "text/csv"
  else if mime = "application/vnd.google-apps.presentation" then "text/plain"
  else if mime = "application/vnd.google-apps.drawing" then "image/png"
  else "text/plain"

/-- The `content` field of the result dict: the export branch stores the
raw response bytes when the export type is textual, otherwise a base64
string; the download branch stores decoded text or a base64 string. -/
inductive ContentV where
  | bytesV : List Nat → ContentV
  | strV : String → ContentV
deriving DecidableEq

/-- What `read_gdrive_file` returns: the success dict
(`success=True, name, mime_type, content, is_text`) or the failure dict
(`success=False, error`). -/
inductive DriveReadOut where
  | okFile (name mime : String) (content : ContentV) (isText : Bool)
  | errFile (msg : String)
deriving DecidableEq

/-- The Drive HttpError message: the English prefix followed by the
stringified HttpError. -/
def driveApiError (s : Nat) (b : String) : String :=
  "Google Drive API Error: " ++ hstr s b

/-- `read_gdrive_file(file_id)`, paired with the external call count. -/
def read_gdrive_file (creds : Option Creds) (ops : DriveOps) (file_id : String) :
    DriveReadOut × Nat :=
  match creds with
  | none => (.errFile "Google authentication failed.", 0)
  | some _ =>
    match ops.getMeta file_id with
    | .http s b => (.errFile (driveApiError s b), 1)
    | .exn e => (.errFile (unexpectedError e), 1)
    | .ok meta =>
      let file_name := meta.name.getD file_id
      let mime_type := meta.mimeType.getD "application/octet-stream"
      if pyStartsWith mime_type "application/vnd.google-apps" then
        let export_mime := exportMimeFor mime_type
        match ops.exportFile file_id export_mime with
        | .http s b => (.errFile (driveApiError s b), 2)
        | .exn e => (.errFile (unexpectedError e), 2)
        | .ok bytes =>
          let isText := pyStartsWith export_mime "text/" || export_mime = "application/json"
          let content := if isText then ContentV.bytesV bytes
                         else ContentV.strV (b64Encode bytes)
          (.okFile file_name export_mime content isText, 2)
      else
        match ops.downloadFile file_id with
        | .http s b => (.errFile (driveApiError s b), 2)
        | .exn e => (.errFile (unexpectedError e), 2)
        | .ok bytes =>
          let isText := pyStartsWith mime_type "text/" || mime_type = "application/json"
          if isText then
            match utf8Decode bytes with
            | some s => (.okFile file_name mime_type (.strV s) true, 2)
            | none => (.errFile (unexpectedError "UnicodeDecodeError"), 2)
          else (.okFile file_name mime_type (.strV (b64Encode bytes)) false, 2)

/-! ## `search_gdrive` (src/server.py lines 788-892) -/

/-- One file of the Drive list response. -/
structure DriveFile where
  id : Option String
  name : Option String
  mimeType : Option String
  modifiedTime : Option String
  size : Option String
deriving DecidableEq

/-- The Drive list response: `files` may be absent, `nextPageToken` optional. -/
structure DriveListResp where
  files : Option (List DriveFile)
  nextPageToken : Option String
deriving DecidableEq

/-- The one Drive call `search_gdrive` makes:
`files().list(q, pageSize, pageToken, ...)`. -/
structure DriveSearchOps where
  filesList : String → Int → Option String → ExtCall DriveListResp

/-- One formatted file row (`size` defaults to `'N/A'`). -/
structure FmtFile where
  id : String
  name : String
  mimeType : String
  modifiedTime : String
  size : String
deriving DecidableEq

/-- The formatting applied per file. -/
def fmtFile (f : DriveFile) : FmtFile :=
  { id := f.id.getD "", name := f.name.getD "", mimeType := f.mimeType.getD ""
  , modifiedTime := f.modifiedTime.getD "", size := f.size.getD "N/A" }

/-- What `search_gdrive` returns: the success dict
(`success=True, files, total_files, next_page_token`) or the failure dict
(`success=False, error, files=[]`). -/
inductive SearchGdriveRes where
  | okList (files : List FmtFile) (total : Nat) (nextPageToken : Option String)
  | errList (msg : String)
deriving DecidableEq

/-- Outcome of `search_gdrive`: the returned value, the external call
count, and the `(q, pageSize, pageToken)` triple sent when the call was
reached. -/
structure SearchGdriveOut where
  result : SearchGdriveRes
  calls : Nat
  requested : Option (String × Int × Option String)
deriving DecidableEq

/-- `search_gdrive(query, page_token, page_size)`. -/
def search_gdrive (creds : Option Creds) (ops : DriveSearchOps) (query : String)
    (page_token : Option String) (page_size : Option Int) : SearchGdriveOut :=
  match creds with
  | none =>
    { result := .errList "Google authentication failed.", calls := 0, requested := none }
  | some _ =>
    let search_query := buildDriveQuery query
    let ps := clampPageSize page_size
    match ops.filesList search_query ps page_token with
    | .ok resp =>
      let formatted := (resp.files.getD []).map fmtFile
      { result := .okList formatted formatted.length resp.nextPageToken
      , calls := 1, requested := some (search_query, ps, page_token) }
    | .http s b =>
      { result := .errList (driveApiError s b), calls := 1
      , requested := some (search_query, ps, page_token) }
    | .exn e =>
      { result := .errList (unexpectedError e), calls := 1
      , requested := some (search_query, ps, page_token) }

/-! ## Spec-side renderings of the Drive-query claim -/

/-- The MIME-type filter the keyword heuristic selects, per the claim's
keyword list (sheet → spreadsheet, doc → document, presentation/slide →
presentation) and the code's precedence. -/
def mimeFilterFor (user_query : String) : Option String :=
  if pyIn "sheet" (pyLower user_query) then
    some "mimeType = 'application/vnd.google-apps.spreadsheet'"
  else if pyIn "doc" (pyLower user_query) then
    some "mimeType = 'application/vnd.google-apps.document'"
  else if pyIn "presentation" (pyLower user_query) || pyIn "slide" (pyLower user_query) then
    some "mimeType = 'application/vnd.google-apps.presentation'"
  else none

/-- The claim's reading of the Drive query predicate: the name-contains
filter CONJOINED (`and`) with the keyword MIME-type filter, conjoined with
`trashed = false`. Stated from the claim's words, to be compared with the
code's `buildDriveQuery`. -/
def buildDriveQueryClaim (query : String) : String :=
  let user_query := pyStrip query
  if user_query = "" then "trashed = false"
  else
    let nameFilter := "name contains '" ++ escapeDriveQuery user_query ++ "'"
    let conj :=
      match mimeFilterFor user_query with
      | some m => nameFilter ++ " and " ++ m
      | none => nameFilter
    "(" ++ conj ++ ") and trashed = false"

/-- The amended claim's reading: the name-contains filter DISJOINED (`or`)
with the keyword MIME-type filter, the disjunction then conjoined with
`trashed = false`. Written from the amended claim's words, to be compared
with the code's `buildDriveQuery`. -/
def buildDriveQuerySpec (query : String) : String :=
  let user_query := pyStrip query
  if user_query = "" then "trashed = false"
  else
    let nameFilter := "name contains '" ++ escapeDriveQuery user_query ++ "'"
    let disj :=
      match mimeFilterFor user_query with
      | some m => nameFilter ++ " or " ++ m
      | none => nameFilter
    "(" ++ disj ++ ") and trashed = false"

/-- The handler `search_google` as invoked through the dispatch layer, with
the ambient credential environment made explicit: the handler body never
calls `get_google_credentials`, so its behavior is independent of `env` and
`tokenFile` (src/server.py lines 609-668 contain no credential check). -/
def search_google_tool (env : AuthEnv) (tokenFile : Option String) (ops : CseOps)
    (query : String) (num_results : Nat) : SearchGoogleOut × Nat :=
  let _ := env
  let _ := tokenFile
  search_google ops query num_results

/-! # Theorems settling the claims -/

/-- C1, counterexample: the claim says the MIME-type filter is conjoined
(AND) with the name filter; on query `doc` the code produces the
disjunction (`or`), which differs from the claimed conjunction. -/
theorem c1_drive_query_counterexample :
    buildDriveQuery "doc"
        = "(name contains 'doc' or mimeType = 'application/vnd.google-apps.document') and trashed = false"
      ∧ buildDriveQueryClaim "doc"
        = "(name contains 'doc' and mimeType = 'application/vnd.google-apps.document') and trashed = false"
      ∧ buildDriveQuery "doc" ≠ buildDriveQueryClaim "doc" := by
  refine ⟨by decide, by decide, by decide⟩

/-- C1, amended: the predicate is exactly as claimed except that the
keyword MIME-type filter is DISJOINED (`or`) with the name-contains filter,
the disjunction being conjoined with the always-present `trashed = false`;
the empty-query and escaping behavior are as claimed. -/
theorem c1_drive_query_amended :
    (∀ query, buildDriveQuery query = buildDriveQuerySpec query)
      ∧ buildDriveQuery "" = "trashed = false"
      ∧ buildDriveQuery "O'Brien" = "(name contains 'O\\'Brien') and trashed = false" := by
  refine ⟨?_, by decide, by decide⟩
  intro q
  unfold buildDriveQuery buildDriveQuerySpec searchConditions mimeFilterFor
  by_cases h0 : pyStrip q = ""
  · simp [h0]
  · by_cases h1 : pyIn "sheet" (pyLower (pyStrip q)) = true
    · simp [h0, h1]
      rfl
    · by_cases h2 : pyIn "doc" (pyLower (pyStrip q)) = true
      · simp [h0, h1, h2]
        rfl
      · by_cases h3 : (pyIn "presentation" (pyLower (pyStrip q))
            || pyIn "slide" (pyLower (pyStrip q))) = true
        · simp [h0, h1, h2, h3]
          rfl
        · simp [h0, h1, h2, h3]
          rfl

/-- C6, counterexample: in a state where credential acquisition fails
(no token file, no bootstrap secrets — `get_google_credentials` returns
`None`), `search_gdrive`-style handlers would return the authentication
failure, but `search_google` still performs its external call (call count
1) and returns a success payload: it never consults the credential store,
so the claim "every tool handler calls credential acquisition first" is
false at this input. -/
theorem c6_search_google_counterexample :
    (get_google_credentials
        ⟨fun _ => none, fun _ => Except.error "refresh failed", false,
          ⟨false, false, false, "creds-json"⟩⟩ none).creds = none
    ∧ search_google_tool
        ⟨fun _ => none, fun _ => Except.error "refresh failed", false,
          ⟨false, false, false, "creds-json"⟩⟩ none
        ⟨fun _ _ => ExtCall.ok ⟨some [⟨some "t", some "l", some "s"⟩], some ⟨some "7"⟩⟩⟩
        "weather" 5
      = (.okRes [⟨"t", "l", "s"⟩] "7", 1)
    ∧ (search_google_tool
        ⟨fun _ => none, fun _ => Except.error "refresh failed", false,
          ⟨false, false, false, "creds-json"⟩⟩ none
        ⟨fun _ _ => ExtCall.ok ⟨some [⟨some "t", some "l", some "s"⟩], some ⟨some "7"⟩⟩⟩
        "weather" 5).1
      ≠ .errRes "Google authentication failed." := by
  refine ⟨rfl, rfl, by decide⟩

/-- C6, amended: every tool handler except `search_google` calls credential
acquisition first and, when it fails, returns the uniform authentication
failure immediately with no external call; `search_google` performs its
search without any credential acquisition (it is API-key based). Stated for
each embedded credential-using handler at `creds = none`. -/
theorem c6_auth_first_amended :
    (∀ ops q mr, list_emails none ops q mr
        = (.errorMsg "Google authentication failed.", 0))
    ∧ (∀ ops id al rl, modify_email none ops id al rl
        = ("Google authentication failed.", 0))
    ∧ (∀ ops eid s st e l d a, update_event none ops eid s st e l d a
        = ⟨"Google authentication failed.", 0, none⟩)
    ∧ (∀ ops now tm tM mr, list_events none ops now tm tM mr
        = ⟨.errorMsg "Google authentication failed.", 0, none⟩)
    ∧ (∀ ops fid, read_gdrive_file none ops fid
        = (.errFile "Google authentication failed.", 0))
    ∧ (∀ ops q pt ps, search_gdrive none ops q pt ps
        = ⟨.errList "Google authentication failed.", 0, none⟩) :=
  ⟨fun _ _ _ => rfl, fun _ _ _ _ => rfl, fun _ _ _ _ _ _ _ _ => rfl,
   fun _ _ _ _ _ => rfl, fun _ _ => rfl, fun _ _ _ _ => rfl⟩

/-- C7: when both label lists are falsy (absent or empty), `modify_email`
returns the validation message and performs no external call. -/
theorem c7_modify_email_validation :
    ∀ c ops id add_labels remove_labels,
      pyTruthyList add_labels = false → pyTruthyList remove_labels = false →
      modify_email (some c) ops id add_labels remove_labels
        = ("add_labels 또는 remove_labels 중 하나는 제공되어야 합니다.", 0) := by
  intro c ops id al rl h1 h2
  unfold modify_email
  simp [h1, h2]

/-- C7 witness: `add_labels` absent and `remove_labels` the empty list. -/
theorem c7_modify_email_validation_witness :
    modify_email (some ⟨true, false, true, "creds-json"⟩)
        ⟨fun _ _ => ExtCall.ok "m1"⟩ "m1" none (some [])
      = ("add_labels 또는 remove_labels 중 하나는 제공되어야 합니다.", 0) :=
  c7_modify_email_validation _ _ _ _ _ rfl rfl

/-- C9: the page size `search_gdrive` sends to the Drive API is
`clampPageSize page_size`, which always lies in `[1, 100]`; the concrete
cases 500 → 100, 0 → 1 and absent → 10 hold. -/
theorem c9_search_gdrive_page_size :
    (∀ c ops q pt ps, (search_gdrive (some c) ops q pt ps).requested
        = some (buildDriveQuery q, clampPageSize ps, pt))
    ∧ (∀ ps, 1 ≤ clampPageSize ps ∧ clampPageSize ps ≤ 100)
    ∧ clampPageSize (some 500) = 100
    ∧ clampPageSize (some 0) = 1
    ∧ clampPageSize none = 10 := by
  refine ⟨?_, ?_, by decide, by decide, by decide⟩
  · intro c ops q pt ps
    unfold search_gdrive
    cases h : ops.filesList (buildDriveQuery q) (clampPageSize ps) pt <;> simp [h]
  · intro ps
    unfold clampPageSize
    constructor
    · exact le_min (le_max_left 1 _) (by norm_num)
    · exact min_le_right _ _

/-- C10: with `time_min` and `time_max` both absent or empty, `list_events`
sends `timeMin = timeMax = now_iso` — an empty window anchored at the
current time. -/
theorem c10_list_events_empty_window :
    ∀ c ops now_iso time_min time_max max_results,
      (time_min = none ∨ time_min = some "") →
      (time_max = none ∨ time_max = some "") →
      (list_events (some c) ops now_iso time_min time_max max_results).queried
        = some (now_iso, now_iso, max_results) := by
  intro c ops now tm tM mr h1 h2
  have e1 : pyOrStr tm now = now := by rcases h1 with h | h <;> simp [h, pyOrStr]
  have e2 : pyOrStr tM now = now := by rcases h2 with h | h <;> simp [h, pyOrStr]
  unfold list_events
  simp only [e1, e2]
  cases h : ops.listEvents now now mr <;> simp [h]

/-- C10 witness: `time_min` absent, `time_max` the empty string. -/
theorem c10_list_events_empty_window_witness :
    (list_events (some ⟨true, false, true, "creds-json"⟩) ⟨fun _ _ _ => ExtCall.ok []⟩
        "2026-10-12T00:00:00+00:00" none (some "") 10).queried
      = some ("2026-10-12T00:00:00+00:00", "2026-10-12T00:00:00+00:00", 10) :=
  c10_list_events_empty_window _ _ _ _ _ _ (Or.inl rfl) (Or.inr rfl)

/-- C5: when every refresh call fails, `get_google_credentials` leaves the
token file untouched, performs at most one refresh attempt (no retry), and
whenever a refresh was attempted it returns `None`. -/
theorem c5_refresh_failure_no_write :
    ∀ env tokenFile,
      (∀ cr, ∃ e, env.refresh cr = Except.error e) →
      ((get_google_credentials env tokenFile).tokenFile = tokenFile
        ∧ (get_google_credentials env tokenFile).refreshCalls ≤ 1
        ∧ ((get_google_credentials env tokenFile).refreshCalls = 1
            → (get_google_credentials env tokenFile).creds = none)) := by
  intro env tf h
  unfold get_google_credentials envRefreshBranch
  rcases tf with _ | s
  · simp only
    split
    · obtain ⟨e, he⟩ := h env.envCreds
      rw [he]
      exact ⟨rfl, by norm_num, fun _ => rfl⟩
    · exact ⟨rfl, by norm_num, by simp⟩
  · simp only
    cases hp : env.parseTokenFile s
    · simp only
      split
      · obtain ⟨e, he⟩ := h env.envCreds
        rw [he]
        exact ⟨rfl, by norm_num, fun _ => rfl⟩
      · exact ⟨rfl, by norm_num, by simp⟩
    case some c =>
      simp only
      by_cases hv : c.valid
      · simp [hv]
      · simp only [hv, Bool.false_eq_true, if_false]
        by_cases hx : c.expired = true ∧ c.hasRefreshToken = true
        · obtain ⟨e, he⟩ := h c
          simp [hx, he]
        · simp only [hx, if_false]
          split
          · obtain ⟨e, he⟩ := h env.envCreds
            rw [he]
            exact ⟨rfl, by norm_num, fun _ => rfl⟩
          · exact ⟨rfl, by norm_num, by simp⟩

/-- C5 witness: expired persisted record, refresh raising a network fault —
the call returns `None`, the file is unchanged, one refresh attempt. -/
theorem c5_refresh_failure_no_write_witness :
    (get_google_credentials
        ⟨fun s => if s = "tok" then some ⟨false, true, true, "expired-json"⟩ else none,
         fun _ => Except.error "network unreachable", false,
         ⟨false, false, false, "env-json"⟩⟩ (some "tok")).tokenFile = some "tok"
    ∧ (get_google_credentials
        ⟨fun s => if s = "tok" then some ⟨false, true, true, "expired-json"⟩ else none,
         fun _ => Except.error "network unreachable", false,
         ⟨false, false, false, "env-json"⟩⟩ (some "tok")).creds = none :=
  ⟨(c5_refresh_failure_no_write _ _ (fun _ => ⟨"network unreachable", rfl⟩)).1,
   (c5_refresh_failure_no_write _ _ (fun _ => ⟨"network unreachable", rfl⟩)).2.2 (by decide)⟩

/-- C8: when the persisted record parses and is currently valid, a call
returns it with zero refresh calls and an unchanged file, and a second
consecutive call (on the resulting file state) returns the same record,
again with zero refresh calls — no second network refresh. -/
theorem c8_acquire_idempotent_when_valid :
    ∀ env s c, env.parseTokenFile s = some c → c.valid = true →
      (get_google_credentials env (some s) = ⟨some c, some s, 0⟩
        ∧ get_google_credentials env (get_google_credentials env (some s)).tokenFile
            = ⟨some c, some s, 0⟩) := by
  intro env s c hp hv
  have h1 : get_google_credentials env (some s) = ⟨some c, some s, 0⟩ := by
    unfold get_google_credentials
    simp [hp, hv]
  refine ⟨h1, ?_⟩
  rw [h1]
  exact h1

/-- C8 witness: a valid persisted record; both consecutive calls return it
with zero refresh calls. -/
theorem c8_acquire_idempotent_when_valid_witness :
    get_google_credentials
        ⟨fun s => if s = "tok" then some ⟨true, false, true, "valid-json"⟩ else none,
         fun _ => Except.error "network unreachable", false,
         ⟨false, false, false, "env-json"⟩⟩ (some "tok")
      = ⟨some ⟨true, false, true, "valid-json"⟩, some "tok", 0⟩
    ∧ get_google_credentials
        ⟨fun s => if s = "tok" then some ⟨true, false, true, "valid-json"⟩ else none,
         fun _ => Except.error "network unreachable", false,
         ⟨false, false, false, "env-json"⟩⟩
        (get_google_credentials
          ⟨fun s => if s = "tok" then some ⟨true, false, true, "valid-json"⟩ else none,
           fun _ => Except.error "network unreachable", false,
           ⟨false, false, false, "env-json"⟩⟩ (some "tok")).tokenFile
      = ⟨some ⟨true, false, true, "valid-json"⟩, some "tok", 0⟩ :=
  c8_acquire_idempotent_when_valid _ _ _ (by decide) rfl

/-- C2: faults raised inside the handlers' `try` blocks are caught at the
handler boundary and classified — an `HttpError` becomes the
external-service message carrying status and body, any other exception the
internal "unexpected error" message — and every call returns exactly one
envelope (a success payload or an error message), for the two sourced
handlers `list_emails` and `read_gdrive_file`, at whichever external call
the fault arises. -/
theorem c2_handler_fault_classification :
    (∀ c g q mr s b, list_emails (some c) ⟨fun _ _ => ExtCall.http s b, g⟩ q mr
        = (.errorMsg (gmailApiError s b), 1))
    ∧ (∀ c g q mr e, list_emails (some c) ⟨fun _ _ => ExtCall.exn e, g⟩ q mr
        = (.errorMsg (unexpectedError e), 1))
    ∧ (∀ c q mr r rs s b,
        list_emails (some c) ⟨fun _ _ => ExtCall.ok (r :: rs), fun _ => ExtCall.http s b⟩ q mr
          = (.errorMsg (gmailApiError s b), 2))
    ∧ (∀ c q mr r rs e,
        list_emails (some c) ⟨fun _ _ => ExtCall.ok (r :: rs), fun _ => ExtCall.exn e⟩ q mr
          = (.errorMsg (unexpectedError e), 2))
    ∧ (∀ c ex dl fid s b, read_gdrive_file (some c) ⟨fun _ => ExtCall.http s b, ex, dl⟩ fid
        = (.errFile (driveApiError s b), 1))
    ∧ (∀ c ex dl fid e, read_gdrive_file (some c) ⟨fun _ => ExtCall.exn e, ex, dl⟩ fid
        = (.errFile (unexpectedError e), 1))
    ∧ (∀ c dl fid s b,
        read_gdrive_file (some c)
          ⟨fun _ => ExtCall.ok ⟨some "Doc", some "application/vnd.google-apps.document"⟩,
           fun _ _ => ExtCall.http s b, dl⟩ fid
          = (.errFile (driveApiError s b), 2))
    ∧ (∀ c ex fid e,
        read_gdrive_file (some c)
          ⟨fun _ => ExtCall.ok ⟨some "notes.bin", some "application/octet-stream"⟩,
           ex, fun _ => ExtCall.exn e⟩ fid
          = (.errFile (unexpectedError e), 2))
    ∧ (∀ creds ops q mr, (∃ ds n, list_emails creds ops q mr = (.emails ds, n))
        ∨ (∃ m n, list_emails creds ops q mr = (.errorMsg m, n)))
    ∧ (∀ creds ops fid,
        (∃ nm mt ct it n, read_gdrive_file creds ops fid = (.okFile nm mt ct it, n))
        ∨ (∃ m n, read_gdrive_file creds ops fid = (.errFile m, n))) := by
  refine ⟨fun _ _ _ _ _ _ => rfl, fun _ _ _ _ _ => rfl, fun _ _ _ _ _ _ _ => rfl,
    fun _ _ _ _ _ _ => rfl, fun _ _ _ _ _ _ => rfl, fun _ _ _ _ _ => rfl,
    fun _ _ _ _ _ => rfl, fun _ _ _ _ => rfl, ?_, ?_⟩
  · intro creds ops q mr
    rcases creds with _ | c
    · exact Or.inr ⟨_, _, rfl⟩
    · unfold list_emails
      cases h : ops.listMessages mr q with
      | ok refs =>
        rcases h2 : fetchDetails ops refs with ⟨res, n⟩
        cases res <;> simp [h, h2]
      | http s b => simp [h]
      | exn e => simp [h]
  · intro creds ops fid
    rcases creds with _ | c
    · exact Or.inr ⟨_, _, rfl⟩
    · unfold read_gdrive_file
      cases h : ops.getMeta fid with
      | ok meta =>
        by_cases hg : pyStartsWith (meta.mimeType.getD "application/octet-stream")
            "application/vnd.google-apps" = true
        · cases h2 : ops.exportFile fid
              (exportMimeFor (meta.mimeType.getD "application/octet-stream")) <;>
            simp [h, hg, h2]
        · cases h2 : ops.downloadFile fid with
          | ok bytes =>
            by_cases ht : (pyStartsWith (meta.mimeType.getD "application/octet-stream") "text/"
                || (meta.mimeType.getD "application/octet-stream") = "application/json") = true
            · cases h3 : utf8Decode bytes <;> simp [h, hg, h2, ht, h3]
            · simp [h, hg, h2, ht]
          | http s b => simp [h, hg, h2]
          | exn e => simp [h, hg, h2]
      | http s b => simp [h]
      | exn e => simp [h]

/-- Replacing the entries keyed `k` leaves a `find?` for a different key
unchanged. -/
theorem find?_map_set_ne (k k' : String) (v : Json) (h : ¬ k = k') :
    ∀ ds : JDict,
      List.find? (fun p => p.1 = k') (ds.map (fun p => if p.1 = k then (k, v) else p))
        = List.find? (fun p => p.1 = k') ds := by
  intro ds
  induction ds with
  | nil => rfl
  | cons q ds ih =>
    by_cases hq : q.1 = k
    · have hq' : ¬ q.1 = k' := by rw [hq]; exact h
      simp only [List.map_cons, if_pos hq, List.find?]
      simp [h, hq', ih]
    · simp only [List.map_cons, if_neg hq, List.find?]
      by_cases hq' : q.1 = k'
      · simp [hq']
      · simp [hq', ih]

/-- Appending a differently-keyed entry leaves a `find?` unchanged. -/
theorem find?_append_single_ne (k k' : String) (v : Json) (h : ¬ k = k') (ds : JDict) :
    List.find? (fun p => p.1 = k') (ds ++ [(k, v)]) = List.find? (fun p => p.1 = k') ds := by
  induction ds with
  | nil => simp [List.find?, h]
  | cons q ds ih =>
    simp only [List.cons_append, List.find?]
    by_cases hq' : q.1 = k'
    · simp [hq']
    · simp [hq', ih]

/-- Setting key `k` in a dict leaves lookups of any other key unchanged. -/
theorem dictLookup_dictSet_ne (d : JDict) (k k' : String) (v : Json) (h : ¬ k = k') :
    dictLookup (dictSet d k v) k' = dictLookup d k' := by
  unfold dictSet dictLookup
  split
  · rw [find?_map_set_ne k k' v h d]
  · rw [find?_append_single_ne k k' v h d]

/-- Overlaying an update dict changes no key outside the update's keys. -/
theorem dictLookup_dictUpdate_frame :
    ∀ (upd base : JDict) (k : String),
      upd.all (fun p => p.1 != k) = true →
      dictLookup (dictUpdate base upd) k = dictLookup base k := by
  intro upd
  induction upd with
  | nil => intro base k _; rfl
  | cons p ps ih =>
    intro base k h
    simp only [List.all_cons, Bool.and_eq_true, bne_iff_ne, ne_eq] at h
    obtain ⟨h1, h2⟩ := h
    have step : dictUpdate base (p :: ps) = dictUpdate (dictSet base p.1 p.2) ps := rfl
    rw [step, ih (dictSet base p.1 p.2) k (by simpa using h2)]
    exact dictLookup_dictSet_ne base p.1 k p.2 h1

/-- C3: `update_event` is read-merge-write — the body written back is the
fetched event overlaid with exactly the present arguments, so every key
outside the update payload keeps its stored value; in particular a
summary-only update leaves `location` and `attendees` untouched. -/
theorem c3_update_event_read_merge_write :
    (∀ c put eid summary start endT location description attendees ev k,
        (updatePayload summary start endT location description attendees).all
            (fun p => p.1 != k) = true →
        ((update_event (some c) ⟨fun _ => ExtCall.ok ev, put⟩ eid
              summary start endT location description attendees).written
            = some (dictUpdate ev (updatePayload summary start endT location description attendees))
          ∧ dictLookup (dictUpdate ev
                (updatePayload summary start endT location description attendees)) k
              = dictLookup ev k))
    ∧ (∀ c put eid s ev,
        (update_event (some c) ⟨fun _ => ExtCall.ok ev, put⟩ eid
              (some s) none none none none none).written
            = some (dictUpdate ev (updatePayload (some s) none none none none none))
          ∧ dictLookup (dictUpdate ev (updatePayload (some s) none none none none none))
              "location" = dictLookup ev "location"
          ∧ dictLookup (dictUpdate ev (updatePayload (some s) none none none none none))
              "attendees" = dictLookup ev "attendees") := by
  have hw : ∀ c (put : String → JDict → ExtCall JDict) eid summary start endT location
      description attendees ev,
      (update_event (some c) ⟨fun _ => ExtCall.ok ev, put⟩ eid
          summary start endT location description attendees).written
        = some (dictUpdate ev (updatePayload summary start endT location description attendees)) := by
    intro c put eid summary start endT location description attendees ev
    unfold update_event
    cases h : put eid (dictUpdate ev
        (updatePayload summary start endT location description attendees)) with
    | ok upd => cases h2 : dictLookup upd "id" <;> simp [h, h2]
    | http s b => simp [h]
    | exn e => simp [h]
  constructor
  · intro c put eid summary start endT location description attendees ev k h
    exact ⟨hw c put eid summary start endT location description attendees ev,
      dictLookup_dictUpdate_frame _ ev k h⟩
  · intro c put eid s ev
    refine ⟨hw c put eid (some s) none none none none none ev, ?_, ?_⟩
    · exact dictLookup_dictUpdate_frame _ ev "location" rfl
    · exact dictLookup_dictUpdate_frame _ ev "attendees" rfl

/-- C3 witness: a stored event with summary, location and attendees; a
summary-only update writes the merged event and leaves `location` and
`attendees` at their stored values. -/
theorem c3_update_event_read_merge_write_witness :
    ((update_event (some ⟨true, false, true, "creds-json"⟩)
          ⟨fun _ => ExtCall.ok [("id", Json.str "E1"), ("summary", Json.str "old"),
              ("location", Json.str "Berlin"),
              ("attendees", Json.arr [Json.obj [("email", Json.str "a@example.com")]])],
            fun _ b => ExtCall.ok b⟩ "E1"
          (some "new title") none none none none none).written
        = some (dictUpdate [("id", Json.str "E1"), ("summary", Json.str "old"),
            ("location", Json.str "Berlin"),
            ("attendees", Json.arr [Json.obj [("email", Json.str "a@example.com")]])]
            (updatePayload (some "new title") none none none none none)))
    ∧ dictLookup (dictUpdate [("id", Json.str "E1"), ("summary", Json.str "old"),
          ("location", Json.str "Berlin"),
          ("attendees", Json.arr [Json.obj [("email", Json.str "a@example.com")]])]
          (updatePayload (some "new title") none none none none none)) "location"
        = dictLookup [("id", Json.str "E1"), ("summary", Json.str "old"),
            ("location", Json.str "Berlin"),
            ("attendees", Json.arr [Json.obj [("email", Json.str "a@example.com")]])] "location"
    ∧ dictLookup (dictUpdate [("id", Json.str "E1"), ("summary", Json.str "old"),
          ("location", Json.str "Berlin"),
          ("attendees", Json.arr [Json.obj [("email", Json.str "a@example.com")]])]
          (updatePayload (some "new title") none none none none none)) "attendees"
        = dictLookup [("id", Json.str "E1"), ("summary", Json.str "old"),
            ("location", Json.str "Berlin"),
            ("attendees", Json.arr [Json.obj [("email", Json.str "a@example.com")]])] "attendees" :=
  c3_update_event_read_merge_write.2 ⟨true, false, true, "creds-json"⟩ (fun _ b => ExtCall.ok b)
    "E1" "new title" [("id", Json.str "E1"), ("summary", Json.str "old"),
      ("location", Json.str "Berlin"),
      ("attendees", Json.arr [Json.obj [("email", Json.str "a@example.com")]])]

/-- The first loop of `_get_email_body` is `findSome?` of the leaf guard. -/
theorem findPlainTop_eq_findSome? : ∀ ps, findPlainTop ps = ps.findSome? partPlainData := by
  intro ps
  induction ps with
  | nil => rfl
  | cons p ps ih =>
    simp only [findPlainTop, List.findSome?]
    cases h : partPlainData p <;> simp [h, ih]

/-- The second loop of `_get_email_body` is `findSome?` of the
alternative-subpart guard. -/
theorem findPlainAlt_eq_findSome? : ∀ ps, findPlainAlt ps
    = ps.findSome? (fun p => if p.mimeType = "multipart/alternative"
        then (p.parts.getD []).findSome? partPlainData else none) := by
  intro ps
  induction ps with
  | nil => rfl
  | cons p ps ih =>
    simp only [findPlainAlt, List.findSome?]
    by_cases hm : p.mimeType = "multipart/alternative"
    · cases hp : p.parts with
      | some subs =>
        simp [hm, hp, findPlainTop_eq_findSome?, ih]
        cases hsub : List.findSome? partPlainData subs <;> simp [hsub]
      | none => simp [hm, hp, ih]
    · simp [hm, ih]

/-- C4, counterexample: the claim predicts the first `text/plain` leaf in
depth-first order; on a payload whose first direct part is a
`multipart/alternative` wrapping a `text/plain` leaf (base64 of `hello`)
and whose second direct part is a `text/plain` leaf (base64 of `world`),
depth-first order finds `hello` but the code's first pass over the direct
parts returns `world`. -/
theorem c4_email_body_dfs_counterexample :
    getEmailBody (some ⟨none, none, some
        [MailPart.mk "multipart/alternative" none
          (some [MailPart.mk "text/plain" (some ⟨some "aGVsbG8="⟩) none]),
         MailPart.mk "text/plain" (some ⟨some "d29ybGQ="⟩) none]⟩)
      = .ok "world"
    ∧ emailBodyDFSClaim (some ⟨none, none, some
        [MailPart.mk "multipart/alternative" none
          (some [MailPart.mk "text/plain" (some ⟨some "aGVsbG8="⟩) none]),
         MailPart.mk "text/plain" (some ⟨some "d29ybGQ="⟩) none]⟩)
      = .ok "hello"
    ∧ getEmailBody (some ⟨none, none, some
        [MailPart.mk "multipart/alternative" none
          (some [MailPart.mk "text/plain" (some ⟨some "aGVsbG8="⟩) none]),
         MailPart.mk "text/plain" (some ⟨some "d29ybGQ="⟩) none]⟩)
      ≠ emailBodyDFSClaim (some ⟨none, none, some
        [MailPart.mk "multipart/alternative" none
          (some [MailPart.mk "text/plain" (some ⟨some "aGVsbG8="⟩) none]),
         MailPart.mk "text/plain" (some ⟨some "d29ybGQ="⟩) none]⟩) := by
  refine ⟨by decide, by decide, by decide⟩

/-- C4, amended: body extraction is a two-pass scan, not a depth-first
traversal — first `text/plain` among the direct parts, then `text/plain`
among sub-parts of direct `multipart/alternative` parts, then the payload's
own body when its MIME type contains `text/plain`, else the
could-not-extract sentinel (falsy payload: the no-body-content sentinel);
the claim's base64/UTF-8 decoding, its positive example and its
no-leaf-sentinel behavior hold. -/
theorem c4_email_body_two_pass :
    (∀ payload, getEmailBody payload = emailBodyTwoPass payload)
    ∧ getEmailBody (some ⟨none, none,
          some [MailPart.mk "text/plain" (some ⟨some "aGVsbG8="⟩) none]⟩)
        = .ok "hello"
    ∧ getEmailBody (some ⟨some "text/html", some ⟨some "PGI+aGk8L2I+"⟩, none⟩)
        = .ok "(Could not extract plain text body)" := by
  refine ⟨?_, by decide, by decide⟩
  intro p
  rcases p with _ | pl
  · rfl
  · unfold getEmailBody emailBodyTwoPass
    rcases hps : pl.parts with _ | ps
    · simp only [hps, Option.getD_none, List.findSome?]
      rcases hb : pl.body with _ | b
      · simp [hb]
      · rcases hd : b.data with _ | d <;> simp [hb, hd]
    · simp only [hps, Option.getD_some]
      rw [findPlainTop_eq_findSome? ps, findPlainAlt_eq_findSome? ps]
      cases h1 : ps.findSome? partPlainData with
      | some d => simp [h1]
      | none =>
        cases h2 : ps.findSome? (fun p => if p.mimeType = "multipart/alternative"
            then (p.parts.getD []).findSome? partPlainData else none) with
        | some d => simp [h1, h2]
        | none =>
          simp only [h1, h2, Option.none_orElse]
          rcases hb : pl.body with _ | b
          · simp [hb]
          · rcases hd : b.data with _ | d <;> simp [hb, hd]
